import Mathlib

/-!
Shallow embedding of the connectteam-cli program (src/main.rs).

The program pulls a punch-clock timesheet from a web dashboard and renders
it as a day-grouped table.  The embedding below models, from the source:

* the JSON value type of the `json` crate together with the exact accessor
  behaviour the program relies on (`Index<&str>` / `Index<usize>` returning
  a null sentinel, the `AsVec` helper trait, `Display`, `as_i64`,
  `Number::as_fixed_point_u64(0)`),
* `parse_timesheet` (including the description-merge policy and the
  per-shift unwrap/index panics),
* the id-collection walk of `get_object_id_from_api`,
* the transport layer of both fetch functions (which never inspects the
  HTTP status),
* the sort / group / render pipeline of `draw_timesheet`,
* the cookie-header extraction of `load_session_info_or_ask_user`.

External crates are modelled at their observable boundary: `json::parse`
is abstracted by its outcome (`Option JsonValue`, `none` = the text is not
parseable JSON), the HTTP client by the outcome of the request
(`Option HttpResponse`, `none` = the network call or body read failed),
and `chrono` date-time values by their epoch-second payload together with
a faithful civil-calendar conversion.
-/

/-- JSON tree as in the `json` crate.  The crate's two string variants
(`Short`/`String`) are merged into one; a number is carried as an exact
rational (the crate stores a sign/mantissa/exponent fixed-point triple,
whose value is a rational). -/
inductive JsonValue where
  | null
  | bool (b : Bool)
  | num (q : ℚ)
  | str (s : String)
  | arr (elems : List JsonValue)
  | obj (members : List (String × JsonValue))

/-- First member of an object with the given key, as the crate's
`Object::get`. -/
def lookupMember : List (String × JsonValue) → String → Option JsonValue
  | [], _ => none
  | (k, v) :: rest, key => if k = key then some v else lookupMember rest key

/-- `Index<&str>` for `JsonValue`: member of an object, `Null` when the key
is missing or the value is not an object. -/
def jget : JsonValue → String → JsonValue
  | JsonValue.obj members, key => (lookupMember members key).getD JsonValue.null
  | _, _ => JsonValue.null

/-- `Index<usize>` for `JsonValue`: array element, `Null` when the index is
out of range or the value is not an array. -/
def jidx : JsonValue → Nat → JsonValue
  | JsonValue.arr elems, i => elems.getD i JsonValue.null
  | _, _ => JsonValue.null

/-- The repository's `AsVec::as_vec` (main.rs lines 63-73): the elements of
an `Array` value, and the empty vector for every other variant. -/
def as_vec : JsonValue → List JsonValue
  | JsonValue.arr elems => elems
  | _ => []

/-- `PartialEq<&str>` for `JsonValue`: true exactly on a string variant with
equal content. -/
def jeqStr : JsonValue → String → Bool
  | JsonValue.str s, t => s == t
  | _, _ => false

/-- True exactly on the `Array` variant. -/
def isArr : JsonValue → Bool
  | JsonValue.arr _ => true
  | _ => false

/-- True exactly on the `Object` variant. -/
def isObj : JsonValue → Bool
  | JsonValue.obj _ => true
  | _ => false

/-- Hexadecimal digit, used by the string escaping of `dump`. -/
def hexDigit (n : Nat) : Char :=
  if n < 10 then Char.ofNat (48 + n) else Char.ofNat (87 + n)

/-- JSON string escaping as in the `json` crate's serializer. -/
def escapeChar (c : Char) : String :=
  if c = '"' then "\\\""
  else if c = '\\' then "\\\\"
  else if c = '\n' then "\\n"
  else if c = '\r' then "\\r"
  else if c = '\t' then "\\t"
  else if c.toNat = 8 then "\\b"
  else if c.toNat = 12 then "\\f"
  else if c.toNat < 32 then
    "\\u00" ++ String.mk [hexDigit (c.toNat / 16), hexDigit (c.toNat % 16)]
  else String.singleton c

/-- Escape every character of a string for JSON serialization. -/
def escapeString (s : String) : String :=
  String.join (s.data.map escapeChar)

/-- Decimal rendering of a JSON number.  Exact for integer values (the only
numeric shape the program's fields carry); a non-integral value is shown as
`num/den`, an abbreviation of the external crate's decimal formatter that
no theorem below exercises. -/
def numDisplay (q : ℚ) : String :=
  if q.den = 1 then toString q.num else toString q.num ++ "/" ++ toString q.den

mutual

/-- Serialization of a JSON value, as the `json` crate's `dump`. -/
def jdump : JsonValue → String
  | JsonValue.null => "null"
  | JsonValue.bool b => if b then "true" else "false"
  | JsonValue.num q => numDisplay q
  | JsonValue.str s => "\"" ++ escapeString s ++ "\""
  | JsonValue.arr elems => "[" ++ jdumpElems elems ++ "]"
  | JsonValue.obj members => "\x7b" ++ jdumpMembers members ++ "\x7d"

/-- Comma-separated serialization of array elements. -/
def jdumpElems : List JsonValue → String
  | [] => ""
  | [v] => jdump v
  | v :: rest => jdump v ++ "," ++ jdumpElems rest

/-- Comma-separated serialization of object members. -/
def jdumpMembers : List (String × JsonValue) → String
  | [] => ""
  | [(k, v)] => "\"" ++ escapeString k ++ "\":" ++ jdump v
  | (k, v) :: rest => "\"" ++ escapeString k ++ "\":" ++ jdump v ++ "," ++ jdumpMembers rest

end

/-- `Display`/`to_string` of the `json` crate: a string variant prints its
raw content (no quotes), `Null` prints the four characters `null`, booleans
and numbers print their value, arrays and objects print their `dump`. -/
def jdisplay : JsonValue → String
  | JsonValue.null => "null"
  | JsonValue.bool b => if b then "true" else "false"
  | JsonValue.num q => numDisplay q
  | JsonValue.str s => s
  | JsonValue.arr elems => jdump (JsonValue.arr elems)
  | JsonValue.obj members => jdump (JsonValue.obj members)

/-- `JsonValue::as_i64`: the value of a number variant when it is an exact
integer in the `i64` range, `none` otherwise (and on every non-number). -/
def as_i64 : JsonValue → Option Int
  | JsonValue.num q =>
    if q.den = 1 ∧ -(2 ^ 63) ≤ q.num ∧ q.num < 2 ^ 63 then some q.num else none
  | _ => none

/-- `Number::as_fixed_point_u64(0)`: `none` for a negative number (the
program then unwraps and panics), otherwise the integer part reduced
modulo `2 ^ 64` (the crate computes it by wrapping `u64` arithmetic on the
mantissa; the division path truncates a fractional part). -/
def as_fixed_point_u64_zero (q : ℚ) : Option Nat :=
  if 0 ≤ q then some ((Int.toNat ⌊q⌋) % 2 ^ 64) else none

/-- Civil (proleptic Gregorian) date of a day count relative to 1970-01-01,
the conversion underlying chrono's `Datelike` accessors on a UTC date:
`(year, month, day)`. -/
def civilFromDays (z : Int) : Int × Int × Int :=
  let zs := z + 719468
  let era := Int.fdiv zs 146097
  let doe := zs - era * 146097
  let yoe := (doe - doe / 1460 + doe / 36524 - doe / 146096) / 365
  let y := yoe + era * 400
  let doy := doe - (365 * yoe + yoe / 4 - yoe / 100)
  let mp := (5 * doy + 2) / 153
  let d := doy - (153 * mp + 2) / 5 + 1
  let m := mp + (if mp < 10 then 3 else -9)
  (y + (if m ≤ 2 then 1 else 0), m, d)

/-- Day count of an epoch-second instant (chrono uses euclidean division by
86400 to split an instant into date and time of day). -/
def dayNumOfSecs (s : Int) : Int := Int.fdiv s 86400

/-- Year component (`Datelike::year`) of the UTC date of an epoch-second
instant. -/
def yearOf (s : Int) : Int := (civilFromDays (dayNumOfSecs s)).1

/-- Month component (`Datelike::month`) of the UTC date of an epoch-second
instant. -/
def monthOf (s : Int) : Int := (civilFromDays (dayNumOfSecs s)).2.1

/-- Day-of-month component (`Datelike::day`) of the UTC date of an
epoch-second instant. -/
def dayOf (s : Int) : Int := (civilFromDays (dayNumOfSecs s)).2.2

/-- Range check of chrono's `Utc.timestamp_opt(secs, 0)`: the instant must
fall in a representable year (chrono years span `i32::MIN >> 13` to
`i32::MAX >> 13`); outside it the program's `unwrap` panics. -/
def timestampInChronoRange (s : Int) : Bool :=
  decide (-262144 ≤ yearOf s ∧ yearOf s ≤ 262143)

/-- The record produced per shift (struct `TimesheetEntry`); the two
instants are carried as epoch seconds. -/
structure TimesheetEntry where
  start : Int
  «end» : Int
  desc : String
  project : String
  subproject : String
deriving DecidableEq, Repr

/-- Session cookie values (struct `SessionInfo`). -/
structure SessionInfo where
  session : String
  spirit : String
deriving DecidableEq, Repr

/-- Failure modes of a run, following the spec's taxonomy: `transport` is a
propagated reqwest error, `schema` a propagated `json::parse` error,
`notFound` the `assert!(object_ids.len() != 0)` failure (the spec's
`NotFoundError`), and `panicked` every other panic (a failed `unwrap` or an
out-of-range `Vec` index). -/
inductive Err where
  | transport
  | schema
  | notFound
  | panicked
deriving DecidableEq, Repr

/-- The per-shift `parse_timestamp` closure (main.rs lines 165-170): read
`timestampWithTimezone.timestamp` as an `i64` and convert it to a UTC
instant; both `unwrap`s panic when the field is absent, non-integral, or
out of chrono's range. -/
def parse_timestamp (timestamp : JsonValue) : Except Err Int :=
  match as_i64 (jget (jget timestamp "timestampWithTimezone") "timestamp") with
  | some s => if timestampInChronoRange s then Except.ok s else Except.error Err.panicked
  | none => Except.error Err.panicked

/-- Description merge (main.rs lines 172-182): `free_text` counts as absent
when it is empty or the literal text `null`; `notes` counts as absent only
when it is empty. -/
def derive_desc (free_text notes : String) : String :=
  if (!(free_text == "" || free_text == "null")) && notes != "" then
    free_text ++ " / " ++ notes
  else if !(free_text == "" || free_text == "null") then free_text
  else if notes != "" then notes
  else ""

/-- The per-shift body of `parse_timesheet`'s `map` closure (main.rs lines
164-191).  `shift["shiftAttachments"].as_vec()[0]` indexes a plain `Vec`,
so an absent, non-array or empty `shiftAttachments` panics (index out of
bounds) before anything else is read. -/
def parse_shift (shift : JsonValue) : Except Err TimesheetEntry :=
  match (as_vec (jget shift "shiftAttachments")).head? with
  | none => Except.error Err.panicked
  | some firstAttachment =>
    let free_text := jdisplay (jget firstAttachment "freeText")
    let notes := jdisplay (jget shift "employeeNotes")
    let desc := derive_desc free_text notes
    match parse_timestamp (jget shift "punchIn") with
    | Except.error e => Except.error e
    | Except.ok startSecs =>
      match parse_timestamp (jget shift "punchOut") with
      | Except.error e => Except.error e
      | Except.ok endSecs =>
        Except.ok
          { start := startSecs
            «end» := endSecs
            desc := desc
            project := jdisplay (jget (jget shift "punchTag") "name")
            subproject :=
              jdisplay (jget (jidx (jget (jget shift "punchTag") "subItems") 0) "name") }

/-- `map`/`collect` over the flattened shift list: the first panicking
shift aborts the whole parse. -/
def parse_shifts : List JsonValue → Except Err (List TimesheetEntry)
  | [] => Except.ok []
  | s :: rest =>
    match parse_shift s with
    | Except.error e => Except.error e
    | Except.ok e =>
      match parse_shifts rest with
      | Except.error e2 => Except.error e2
      | Except.ok es => Except.ok (e :: es)

/-- `parse_timesheet` (main.rs lines 155-195).  The external `json::parse`
of the response text is abstracted by its outcome: `none` models text that
is not parseable JSON (the `?` then propagates the parse error, the spec's
`SchemaError`).  Navigation to `data.userTimeSheets.timeSheetEntries` and
the two `as_vec` flattening levels never fail. -/
def parse_timesheet (parsed : Option JsonValue) : Except Err (List TimesheetEntry) :=
  match parsed with
  | none => Except.error Err.schema
  | some root =>
    let time_sheet_entries := jget (jget (jget root "data") "userTimeSheets") "timeSheetEntries"
    let shifts :=
      ((as_vec time_sheet_entries).flatMap fun x =>
        as_vec (jget x "timeSheetDayEntries")).flatMap fun x => as_vec (jget x "shifts")
    parse_shifts shifts

/-- The id-collection iterator chain of `get_object_id_from_api` (main.rs
lines 89-102): walk `containers → name == "Operations" → assets →
dashboardType == "punchclock" → courses → sections → objects` and keep
every `id` that is a number. -/
def collect_object_ids (containers : JsonValue) : List ℚ :=
  (((((((as_vec containers).filter fun x =>
      jeqStr (jget x "name") "Operations").flatMap fun x =>
      as_vec (jget x "assets")).filter fun x =>
      jeqStr (jget x "dashboardType") "punchclock").flatMap fun x =>
      as_vec (jget x "courses")).flatMap fun x =>
      as_vec (jget x "sections")).flatMap fun x =>
      as_vec (jget x "objects")).filterMap fun x =>
      match jget x "id" with
      | JsonValue.num q => some q
      | _ => none

/-- `get_object_id_from_api` after the fetch (main.rs lines 86-108), with
`json::parse` abstracted by its outcome.  The result pairs the selected id
with whether the multiple-match warning line was printed.  An empty
collection fails the `assert!` (the spec's `NotFoundError`); a negative
first id makes `as_fixed_point_u64(0).unwrap()` panic. -/
def get_object_id_from_parsed (parsed : Option JsonValue) : Except Err (Nat × Bool) :=
  match parsed with
  | none => Except.error Err.schema
  | some root =>
    let object_ids := collect_object_ids (jget (jget root "data") "containers")
    match object_ids with
    | [] => Except.error Err.notFound
    | q :: rest =>
      match as_fixed_point_u64_zero q with
      | some n => Except.ok (n, decide (1 < (q :: rest).length))
      | none => Except.error Err.panicked

/-- Outcome of an HTTP exchange: the response the client produced. -/
structure HttpResponse where
  status : Nat
  body : String
deriving DecidableEq, Repr

/-- Success predicate on an HTTP status (`StatusCode::is_success`,
`200..=299`).  Modelled from the spec: the program itself never calls it —
which is what claim C8 is about. -/
def status_is_success (status : Nat) : Bool :=
  decide (200 ≤ status ∧ status < 300)

/-- Transport layer of `get_object_id_from_api` (main.rs lines 78-85):
`none` models a failed `send()` or a failed `.text()` (the propagated
reqwest error, the spec's `TransportError`); a delivered response yields
its raw body text, whatever the status. -/
def content_structure_fetch (net : Option HttpResponse) : Except Err String :=
  match net with
  | none => Except.error Err.transport
  | some resp => Except.ok resp.body

/-- Transport layer of `send_request_get_timesheet` (main.rs lines
122-131), identical in shape: the status is never inspected. -/
def timesheet_fetch (net : Option HttpResponse) : Except Err String :=
  match net with
  | none => Except.error Err.transport
  | some resp => Except.ok resp.body

/-- Comparison key of `entries.sort_by_key(|k| k.start)`. -/
def start_le (a b : TimesheetEntry) : Bool := decide (a.start ≤ b.start)

/-- Lines 283-284 of `draw_timesheet`: stable sort by `start` ascending
(Rust's `sort_by_key` is stable, as is `List.mergeSort`), then reverse the
whole sequence. -/
def sorted_entries (entries : List TimesheetEntry) : List TimesheetEntry :=
  (entries.mergeSort start_le).reverse

/-- Grouping predicate of `draw_timesheet` (main.rs lines 287-291): the two
starts share day, month and year of their UTC date. -/
def same_day (k l : TimesheetEntry) : Bool :=
  dayOf k.start == dayOf l.start
    && monthOf k.start == monthOf l.start
    && yearOf k.start == yearOf l.start

/-- Adjacency grouping as `slice::group_by`: a new group starts exactly at
each adjacent pair on which the predicate is false; groups are nonempty and
concatenate to the input. -/
def groupByAdj (p : α → α → Bool) : List α → List (List α)
  | [] => []
  | [a] => [[a]]
  | a :: b :: rest =>
    match groupByAdj p (b :: rest) with
    | [] => [[a]]
    | g :: gs => if p a b then (a :: g) :: gs else [a] :: g :: gs

/-- A row of the rendered table, keeping the data the renderer puts in the
cells (border styling, column spans and alignment are presentation only):
the fixed column-header row, a day-header row showing the date, or an
entry row showing the formatted times and the three text fields. -/
inductive RowKind where
  | columnHeader
  | dayHeader (date : String)
  | entryRow (startTime endTime desc project subproject : String)
deriving DecidableEq, Repr

/-- Left-pad a numeral with zeros to the given width. -/
def natPad (n : Nat) (w : Nat) : String :=
  let s := toString n
  if s.length < w then String.mk (List.replicate (w - s.length) '0') ++ s else s

/-- Formatting `%H:%M` of the time of day of an epoch-second instant. -/
def fmtHM (s : Int) : String :=
  let sod := (Int.emod s 86400).toNat
  natPad (sod / 3600) 2 ++ ":" ++ natPad (sod % 3600 / 60) 2

/-- `Display` of chrono's `NaiveDate` (`date_naive()` of the group head):
`YYYY-MM-DD`, the year zero-padded to four digits and carrying an explicit
sign outside `0..=9999`. -/
def fmtDate (s : Int) : String :=
  let c := civilFromDays (dayNumOfSecs s)
  let yearStr :=
    if 0 ≤ c.1 ∧ c.1 ≤ 9999 then natPad c.1.toNat 4
    else (if c.1 < 0 then "-" else "+") ++ natPad c.1.natAbs 4
  yearStr ++ "-" ++ natPad c.2.1.toNat 2 ++ "-" ++ natPad c.2.2.toNat 2

/-- The entry row built for one `TimesheetEntry` (main.rs lines 311-319). -/
def entry_row (e : TimesheetEntry) : RowKind :=
  RowKind.entryRow (fmtHM e.start) (fmtHM e.«end») e.desc e.project e.subproject

/-- Rows emitted for one day group (main.rs lines 305-320): a day-header
row showing the date of the group's first entry, then one row per entry.
`group_by` never yields an empty group, so the `[]` case is unreachable
(the source's `day.first().unwrap()` would panic there). -/
def draw_group : List TimesheetEntry → List RowKind
  | [] => []
  | e :: es => RowKind.dayHeader (fmtDate e.start) :: (e :: es).map entry_row

/-- `draw_timesheet` (main.rs lines 282-322) as the sequence of rows added
to the table: sort-then-reverse, group adjacent same-day entries, then the
fixed column-header row followed by each group's rows. -/
def draw_timesheet (entries : List TimesheetEntry) : List RowKind :=
  RowKind.columnHeader :: (groupByAdj same_day (sorted_entries entries)).flatMap draw_group

/-- Executable splitting of a character list at every occurrence of a
separator character, as Rust's `str::split` with a one-character pattern
(the program splits on `;` and on `=`); empty pieces are kept.  (Lean's
own `String.splitOn` is defined by well-founded recursion and does not
evaluate inside the kernel, so the split is modelled on the character
list.) -/
def splitChars (sep : Char) : List Char → List (List Char)
  | [] => [[]]
  | c :: rest =>
    if c = sep then [] :: splitChars sep rest
    else
      match splitChars sep rest with
      | [] => [[c]]
      | piece :: pieces => (c :: piece) :: pieces

/-- Rust's `str::split` on one separator character, as a `String`
operation. -/
def splitString (sep : Char) (s : String) : List String :=
  (splitChars sep s.data).map String.mk

/-- Rust's `str::trim`: remove leading and trailing whitespace. -/
def trimString (s : String) : String :=
  String.mk (((s.data.dropWhile Char.isWhitespace).reverse.dropWhile
    Char.isWhitespace).reverse)

/-- The single-quote character optionally stripped from the pasted line. -/
def quoteChar : Char := '\''

/-- Cookie-field extraction closure of `load_session_info_or_ask_user`
(main.rs lines 259-267): split on `;`, split each piece on every `=`
trimming the parts, keep pieces with exactly two parts whose first part is
the field, flatten, and take element 1 (`none` models the panicking `[1]`
index when no piece qualifies). -/
def extract_field_from_cookie (user_input field : String) : Option String :=
  ((((splitString ';' user_input).map fun piece =>
      (splitString '=' piece).map trimString).filter fun parts =>
      parts.length == 2).filter fun parts =>
      parts.head? == some field).flatten.get? 1

/-- Quote stripping applied to the pasted line (main.rs lines 252-257): an
optional leading and then an optional trailing single-quote character are
removed, mirroring the two successive guarded `remove` calls. -/
def strip_outer_quotes (s : String) : String :=
  let l1 :=
    match s.data with
    | c :: rest => if c = quoteChar then rest else c :: rest
    | [] => []
  let l2 := if l1.getLast? = some quoteChar then l1.dropLast else l1
  String.mk l2

/-- The interactive branch of `load_session_info_or_ask_user` (main.rs
lines 246-272) on a pasted line: trim, strip optional outer quotes, then
extract both cookie fields (`none` models the panic when either is not
found). -/
def load_session_from_input (raw : String) : Option SessionInfo :=
  let user_input := strip_outer_quotes (trimString raw)
  match extract_field_from_cookie user_input "session",
      extract_field_from_cookie user_input "_spirit" with
  | some session, some spirit => some { session := session, spirit := spirit }
  | _, _ => none

/-- Modelled from the amended claim's merge policy: the `freeText`
candidate counts as not present when it is empty or the literal text
`null`; the `notes` candidate counts as not present only when it is empty —
the literal text `null` (in particular the display of an absent
`employeeNotes`) counts as a present notes value. -/
def desc_merge_amended (free_text notes : String) : String :=
  if (free_text ≠ "" ∧ free_text ≠ "null") ∧ notes ≠ "" then free_text ++ " / " ++ notes
  else if free_text ≠ "" ∧ free_text ≠ "null" then free_text
  else if notes ≠ "" then notes
  else ""

/-- Timestamp node carrying an integral epoch-second value, as the
upstream `punchIn`/`punchOut` objects. -/
def tsNode (n : ℚ) : JsonValue :=
  JsonValue.obj [("timestampWithTimezone", JsonValue.obj [("timestamp", JsonValue.num n)])]

/-- Shift with `freeText` set and `employeeNotes` absent: the notes
candidate displays as the literal text `null`. -/
def cexC2shift : JsonValue :=
  JsonValue.obj
    [("shiftAttachments", JsonValue.arr [JsonValue.obj [("freeText", JsonValue.str "Lunch")]]),
     ("punchIn", tsNode 0), ("punchOut", tsNode 0)]

/-- Shift with a `punchTag` whose `subItems` is the empty array. -/
def cexC4shift : JsonValue :=
  JsonValue.obj
    [("shiftAttachments", JsonValue.arr [JsonValue.obj []]),
     ("punchIn", tsNode 0), ("punchOut", tsNode 0),
     ("punchTag", JsonValue.obj [("name", JsonValue.str "Proj"), ("subItems", JsonValue.arr [])])]

/-- Content tree whose walk collects the two ids 5 and 6. -/
def goodC5tree : JsonValue :=
  JsonValue.obj [("data", JsonValue.obj [("containers", JsonValue.arr
    [JsonValue.obj [("name", JsonValue.str "Operations"),
      ("assets", JsonValue.arr [JsonValue.obj [("dashboardType", JsonValue.str "punchclock"),
        ("courses", JsonValue.arr [JsonValue.obj [("sections", JsonValue.arr
          [JsonValue.obj [("objects", JsonValue.arr
            [JsonValue.obj [("id", JsonValue.num 5)],
             JsonValue.obj [("id", JsonValue.num 6)]])]])]])]])]])])]

/-- Content tree whose walk collects exactly the single id `-1`. -/
def cexC5tree : JsonValue :=
  JsonValue.obj [("data", JsonValue.obj [("containers", JsonValue.arr
    [JsonValue.obj [("name", JsonValue.str "Operations"),
      ("assets", JsonValue.arr [JsonValue.obj [("dashboardType", JsonValue.str "punchclock"),
        ("courses", JsonValue.arr [JsonValue.obj [("sections", JsonValue.arr
          [JsonValue.obj [("objects", JsonValue.arr
            [JsonValue.obj [("id", JsonValue.num (-1))]])]])]])]])]])])]

/-- Entry A of the spec's tie example: start 10:00. -/
def entryA : TimesheetEntry :=
  { start := 36000, «end» := 36600, desc := "A", project := "", subproject := "" }

/-- Entry B of the spec's tie example: start 10:00, originally after A. -/
def entryB : TimesheetEntry :=
  { start := 36000, «end» := 36600, desc := "B", project := "", subproject := "" }

/-- Entry C of the spec's tie example: start 09:00. -/
def entryC : TimesheetEntry :=
  { start := 32400, «end» := 33000, desc := "C", project := "", subproject := "" }

/-- First entry of the adjacency demonstration: 1970-01-01. -/
def dayEntry1 : TimesheetEntry :=
  { start := 0, «end» := 0, desc := "one", project := "", subproject := "" }

/-- Second entry of the adjacency demonstration: 1970-01-02. -/
def dayEntry2 : TimesheetEntry :=
  { start := 86400, «end» := 86400, desc := "two", project := "", subproject := "" }

/-- Third entry of the adjacency demonstration: 1970-01-01 again, not
adjacent to the first. -/
def dayEntry3 : TimesheetEntry :=
  { start := 10, «end» := 10, desc := "three", project := "", subproject := "" }

/-- Every error of the per-shift timestamp parse is a panic, never a
propagated `SchemaError`. -/
theorem parse_timestamp_error_panicked (t : JsonValue) (e : Err)
    (h : parse_timestamp t = Except.error e) : e = Err.panicked := by
  unfold parse_timestamp at h
  split at h
  · split at h <;> simp_all
  · simp_all

/-- Every error of the per-shift closure is a panic, never a propagated
`SchemaError`. -/
theorem parse_shift_error_panicked (s : JsonValue) (e : Err)
    (h : parse_shift s = Except.error e) : e = Err.panicked := by
  unfold parse_shift at h
  split at h
  · simp_all
  · split at h
    · next e1 heq1 =>
        cases h
        exact parse_timestamp_error_panicked _ _ heq1
    · split at h
      · next e2 heq2 =>
          cases h
          exact parse_timestamp_error_panicked _ _ heq2
      · simp_all

/-- Every error of the shift-list traversal is a panic, never a propagated
`SchemaError`. -/
theorem parse_shifts_error_panicked (l : List JsonValue) (e : Err)
    (h : parse_shifts l = Except.error e) : e = Err.panicked := by
  induction l with
  | nil => simp [parse_shifts] at h
  | cons s rest ih =>
    unfold parse_shifts at h
    split at h
    · next e1 heq1 =>
        cases h
        exact parse_shift_error_panicked _ _ heq1
    · split at h
      · next e2 heq2 =>
          cases h
          exact ih heq2
      · simp_all

/-- C1 (amended): `parse_timesheet` fails with `SchemaError` exactly when
the response text is not parseable JSON; a parsed document lacking the
`data.userTimeSheets.timeSheetEntries` path (there modelled by the
navigated node having no array elements) succeeds with the empty sequence
rather than erroring, absent intermediate nodes contributing zero
elements. -/
theorem C1_parse_timesheet_schema_iff_unparseable (parsed : Option JsonValue) :
    (parse_timesheet parsed = Except.error Err.schema ↔ parsed = none)
    ∧ ∀ root, parsed = some root →
        as_vec (jget (jget (jget root "data") "userTimeSheets") "timeSheetEntries") = [] →
        parse_timesheet parsed = Except.ok [] := by
  cases parsed with
  | none =>
    refine ⟨by simp [parse_timesheet], ?_⟩
    intro root h
    exact absurd h (by simp)
  | some root =>
    constructor
    · constructor
      · intro h
        unfold parse_timesheet at h
        exact absurd (parse_shifts_error_panicked _ _ h) (by decide)
      · intro h
        exact absurd h (by simp)
    · intro root2 hroot hvec
      cases hroot
      simp [parse_timesheet, hvec, parse_shifts]

/-- Witness for C1: an unparseable text gives `SchemaError`, and the
parseable document behind the text `"x"` (which lacks the path) gives the
empty sequence. -/
theorem C1_witness :
    parse_timesheet none = Except.error Err.schema
    ∧ parse_timesheet (some (JsonValue.str "x")) = Except.ok [] :=
  ⟨(C1_parse_timesheet_schema_iff_unparseable none).1.mpr rfl,
   (C1_parse_timesheet_schema_iff_unparseable (some (JsonValue.str "x"))).2
     (JsonValue.str "x") rfl rfl⟩

/-- Counterexample to C1 as stated: the parse outcome of the text of an
empty JSON object is parseable and lacks `data.userTimeSheets.
timeSheetEntries`, yet `parse_timesheet` returns the empty sequence, not a
`SchemaError`. -/
theorem C1_cex :
    parse_timesheet (some (JsonValue.obj [])) = Except.ok []
    ∧ Except.ok ([] : List TimesheetEntry) ≠ Except.error Err.schema :=
  ⟨rfl, fun h => nomatch h⟩

/-- C3: a shift whose `shiftAttachments` is absent, not an array, or an
empty array does not complete with an absent `freeText` candidate — the
source's `shift["shiftAttachments"].as_vec()[0]` indexes the empty `Vec`
out of bounds and the whole parse aborts with a panic. -/
theorem C3_absent_attachments_panics :
    parse_shift (JsonValue.obj [("employeeNotes", JsonValue.str "hello")])
        = Except.error Err.panicked
    ∧ parse_shift (JsonValue.obj
          [("shiftAttachments", JsonValue.arr []), ("employeeNotes", JsonValue.str "hello")])
        = Except.error Err.panicked
    ∧ parse_shift (JsonValue.obj
          [("shiftAttachments", JsonValue.str "x"), ("employeeNotes", JsonValue.str "hello")])
        = Except.error Err.panicked :=
  ⟨rfl, rfl, rfl⟩

/-- C8 (amended): both fetch functions fail with `TransportError` exactly
when the network call (or body read) fails; a delivered response's raw body
text is returned whatever its HTTP status — the status is never
inspected. -/
theorem C8_fetch_ignores_status (net : Option HttpResponse) :
    (timesheet_fetch net = Except.error Err.transport ↔ net = none)
    ∧ (content_structure_fetch net = Except.error Err.transport ↔ net = none)
    ∧ ∀ resp, net = some resp →
        timesheet_fetch net = Except.ok resp.body
        ∧ content_structure_fetch net = Except.ok resp.body := by
  cases net <;> simp [timesheet_fetch, content_structure_fetch]

/-- Witness for C8: a delivered `204` response's body is returned by both
fetchers. -/
theorem C8_witness :
    timesheet_fetch (some ⟨204, "body"⟩) = Except.ok "body"
    ∧ content_structure_fetch (some ⟨204, "body"⟩) = Except.ok "body" :=
  (C8_fetch_ignores_status (some ⟨204, "body"⟩)).2.2 ⟨204, "body"⟩ rfl

/-- Counterexample to C8 as stated: responses with the non-success statuses
500 and 404 make the fetchers return the body text, not a
`TransportError`. -/
theorem C8_cex :
    timesheet_fetch (some ⟨500, "oops"⟩) = Except.ok "oops"
    ∧ content_structure_fetch (some ⟨404, "nope"⟩) = Except.ok "nope"
    ∧ status_is_success 500 = false
    ∧ status_is_success 404 = false :=
  ⟨rfl, rfl, rfl, rfl⟩

/-- C9: `as_vec` returns an array's elements and the empty sequence on
every other variant, and navigation by key or index returns the `Null`
sentinel on a missing member, a wrong-kinded node, or an out-of-range
index — all the operations are total, so structural absence never
raises. -/
theorem C9_as_vec_and_navigation_total :
    (∀ elems : List JsonValue, as_vec (JsonValue.arr elems) = elems)
    ∧ (∀ v : JsonValue, isArr v = false → as_vec v = [])
    ∧ (∀ (members : List (String × JsonValue)) (key : String),
        lookupMember members key = none → jget (JsonValue.obj members) key = JsonValue.null)
    ∧ (∀ (v : JsonValue) (key : String), isObj v = false → jget v key = JsonValue.null)
    ∧ (∀ (elems : List JsonValue) (i : Nat), elems.length ≤ i →
        jidx (JsonValue.arr elems) i = JsonValue.null)
    ∧ (∀ (v : JsonValue) (i : Nat), isArr v = false → jidx v i = JsonValue.null) := by
  refine ⟨fun _ => rfl, ?_, ?_, ?_, ?_, ?_⟩
  · intro v h
    cases v <;> simp_all [isArr, as_vec]
  · intro members key h
    simp [jget, h]
  · intro v key h
    cases v <;> simp_all [isObj, jget]
  · intro elems i h
    simp [jidx, List.getD, List.getElem?_eq_none h]
  · intro v i h
    cases v <;> simp_all [isArr, jidx]

/-- Witness for C9: each clause evaluated on a concrete value. -/
theorem C9_witness :
    as_vec (JsonValue.arr [JsonValue.null]) = [JsonValue.null]
    ∧ as_vec (JsonValue.str "x") = []
    ∧ jget (JsonValue.obj [("a", JsonValue.bool true)]) "missing" = JsonValue.null
    ∧ jget JsonValue.null "k" = JsonValue.null
    ∧ jidx (JsonValue.arr [JsonValue.null]) 3 = JsonValue.null
    ∧ jidx (JsonValue.num 7) 0 = JsonValue.null :=
  ⟨C9_as_vec_and_navigation_total.1 [JsonValue.null],
   C9_as_vec_and_navigation_total.2.1 (JsonValue.str "x") rfl,
   C9_as_vec_and_navigation_total.2.2.1 [("a", JsonValue.bool true)] "missing" rfl,
   C9_as_vec_and_navigation_total.2.2.2.1 JsonValue.null "k" rfl,
   C9_as_vec_and_navigation_total.2.2.2.2.1 [JsonValue.null] 3 (by decide),
   C9_as_vec_and_navigation_total.2.2.2.2.2 (JsonValue.num 7) 0 rfl⟩

/-- C2 (amended): for a shift with a non-empty `shiftAttachments` array,
the produced `desc` merges the display string of the first attachment's
`freeText` with the display string of `employeeNotes` under the asymmetric
normalization of `desc_merge_amended`. -/
theorem C2_desc_merge (shift att : JsonValue) (rest : List JsonValue) (e : TimesheetEntry)
    (hatt : jget shift "shiftAttachments" = JsonValue.arr (att :: rest))
    (hok : parse_shift shift = Except.ok e) :
    e.desc = derive_desc (jdisplay (jget att "freeText")) (jdisplay (jget shift "employeeNotes"))
    ∧ ∀ free_text notes, derive_desc free_text notes = desc_merge_amended free_text notes := by
  constructor
  · unfold parse_shift at hok
    rw [hatt] at hok
    simp only [as_vec, List.head?] at hok
    split at hok
    · simp_all
    · split at hok
      · simp_all
      · cases hok
        rfl
  · intro ft n
    by_cases h1 : ft = "" <;> by_cases h2 : ft = "null" <;> by_cases h3 : n = "" <;>
      simp [derive_desc, desc_merge_amended, h1, h2, h3]

/-- Witness for C2 at a concrete shift. -/
theorem C2_witness :
    ({ start := 0, «end» := 0, desc := "Lunch / null", project := "null",
        subproject := "null" } : TimesheetEntry).desc
      = derive_desc
          (jdisplay (jget (JsonValue.obj [("freeText", JsonValue.str "Lunch")]) "freeText"))
          (jdisplay (jget cexC2shift "employeeNotes"))
    ∧ ∀ free_text notes, derive_desc free_text notes = desc_merge_amended free_text notes :=
  C2_desc_merge cexC2shift (JsonValue.obj [("freeText", JsonValue.str "Lunch")]) []
    { start := 0, «end» := 0, desc := "Lunch / null", project := "null", subproject := "null" }
    rfl rfl

/-- Counterexample to C2 as stated: with `freeText = "Lunch"` and
`employeeNotes` absent the claim's symmetric normalization predicts the
desc `Lunch`, but the code treats the displayed notes value `null` as
present and produces `Lunch / null`. -/
theorem C2_cex :
    Except.map TimesheetEntry.desc (parse_shift cexC2shift) = Except.ok "Lunch / null"
    ∧ "Lunch / null" ≠ "Lunch" :=
  ⟨rfl, by decide⟩

/-- C4 (amended): `project` is the display string of `punchTag.name` and
`subproject` the display string of `punchTag.subItems[0].name` (index 0
only); when the source node is absent — in particular when `subItems` is
the empty array — the display of the `Null` sentinel is the literal text
`null`, not the empty string. -/
theorem C4_project_subproject (shift : JsonValue) (e : TimesheetEntry)
    (h : parse_shift shift = Except.ok e) :
    e.project = jdisplay (jget (jget shift "punchTag") "name")
    ∧ e.subproject = jdisplay (jget (jidx (jget (jget shift "punchTag") "subItems") 0) "name")
    ∧ (jget (jget shift "punchTag") "name" = JsonValue.null → e.project = "null")
    ∧ (jget (jget shift "punchTag") "subItems" = JsonValue.arr [] → e.subproject = "null") := by
  unfold parse_shift at h
  split at h
  · simp_all
  · split at h
    · simp_all
    · split at h
      · simp_all
      · cases h
        refine ⟨rfl, rfl, ?_, ?_⟩
        · intro hn
          simp [hn, jdisplay]
        · intro hs
          show jdisplay (jget (jidx (jget (jget shift "punchTag") "subItems") 0) "name") = "null"
          rw [hs]
          rfl

/-- Witness for C4 at a concrete shift with empty `subItems`. -/
theorem C4_witness :
    ({ start := 0, «end» := 0, desc := "null", project := "Proj",
        subproject := "null" } : TimesheetEntry).subproject = "null" :=
  (C4_project_subproject cexC4shift
    { start := 0, «end» := 0, desc := "null", project := "Proj", subproject := "null" }
    rfl).2.2.2 rfl

/-- Counterexample to C4 as stated: a shift with empty `subItems` yields
`subproject = "null"`, not the empty string the claim requires. -/
theorem C4_cex :
    Except.map TimesheetEntry.subproject (parse_shift cexC4shift) = Except.ok "null"
    ∧ ("null" : String) ≠ "" :=
  ⟨rfl, by decide⟩

/-- C5 (amended): the resolver collects the numeric ids along the walk;
zero collected ids fail the assertion (the spec's `NotFoundError`); with at
least one id collected the first in traversal order is returned — provided
it is a non-negative value (its integer part fitting `u64`); the warning
flag is set exactly when more than one id was collected.  A negative first
id instead panics in `as_fixed_point_u64(0).unwrap()`. -/
theorem C5_object_id_selection (root : JsonValue) :
    (collect_object_ids (jget (jget root "data") "containers") = [] →
      get_object_id_from_parsed (some root) = Except.error Err.notFound)
    ∧ ∀ (q : ℚ) (rest : List ℚ),
        collect_object_ids (jget (jget root "data") "containers") = q :: rest →
        0 ≤ q → ⌊q⌋ < 2 ^ 64 →
        get_object_id_from_parsed (some root)
          = Except.ok ((Int.toNat ⌊q⌋), decide (rest ≠ [])) := by
  constructor
  · intro h
    simp only [get_object_id_from_parsed, h]
  · intro q rest h hq0 hlt
    have hfp : as_fixed_point_u64_zero q = some (Int.toNat ⌊q⌋) := by
      unfold as_fixed_point_u64_zero
      rw [if_pos hq0]
      congr 1
      exact Nat.mod_eq_of_lt (by omega)
    simp only [get_object_id_from_parsed, h, hfp]
    cases rest <;> simp

/-- Witness for C5: two collected ids produce the first id together with
the warning flag. -/
theorem C5_witness :
    get_object_id_from_parsed (some goodC5tree) = Except.ok (5, true) := by
  have h := (C5_object_id_selection goodC5tree).2 5 [6] rfl (by norm_num) (by decide)
  simpa using h

/-- Counterexample to C5 as stated: exactly one numeric id is collected,
yet the resolver does not return it — the `u64` conversion of the negative
number unwraps `None` and panics. -/
theorem C5_cex :
    collect_object_ids (jget (jget cexC5tree "data") "containers") = [-1]
    ∧ get_object_id_from_parsed (some cexC5tree) = Except.error Err.panicked :=
  ⟨rfl, rfl⟩

/-- C6: the renderer stably sorts by `start` ascending and reverses, so two
entries with equal starts appear in reverse of their original relative
order; on the spec's example with starts 10:00, 10:00, 09:00 in original
order A, B, C the rendered order is B, A, C. -/
theorem C6_sort_then_reverse :
    (∀ (l : List TimesheetEntry) (a b : TimesheetEntry),
        List.Sublist [a, b] l → a.start = b.start →
        List.Sublist [b, a] (sorted_entries l))
    ∧ sorted_entries [entryA, entryB, entryC] = [entryB, entryA, entryC] := by
  constructor
  · intro l a b hsub heq
    have htrans : ∀ x y z : TimesheetEntry,
        start_le x y = true → start_le y z = true → start_le x z = true := by
      intro x y z hxy hyz
      exact decide_eq_true (le_trans (of_decide_eq_true hxy) (of_decide_eq_true hyz))
    have htotal : ∀ x y : TimesheetEntry, (start_le x y || start_le y x) = true := by
      intro x y
      rcases le_total x.start y.start with h | h <;> simp [start_le, h]
    have hpair : List.Pairwise (fun x y => start_le x y = true) [a, b] := by
      simp [start_le, heq]
    have hstable := List.sublist_mergeSort htrans htotal hpair hsub
    have hrev := List.Sublist.reverse hstable
    simpa [sorted_entries] using hrev
  · simp [sorted_entries, List.mergeSort, entryA, entryB, entryC, start_le]

/-- Witness for C6: A and B tie on start in the example list, and B
precedes A in the rendered order. -/
theorem C6_witness :
    List.Sublist [entryB, entryA] (sorted_entries [entryA, entryB, entryC]) :=
  C6_sort_then_reverse.1 [entryA, entryB, entryC] entryA entryB (by decide) rfl

/-- The first group produced by adjacency grouping starts with the head of
the input. -/
theorem groupByAdj_cons {α : Type} (p : α → α → Bool) (a : α) (l : List α) :
    ∃ t gs, groupByAdj p (a :: l) = (a :: t) :: gs := by
  induction l generalizing a with
  | nil => exact ⟨[], [], rfl⟩
  | cons b rest ih =>
    obtain ⟨t, gs, h⟩ := ih b
    by_cases hp : p a b = true
    · exact ⟨b :: t, gs, by simp [groupByAdj, h, hp]⟩
    · exact ⟨[], (b :: t) :: gs, by simp [groupByAdj, h, hp]⟩

/-- Adjacency grouping loses nothing: the groups concatenate back to the
input. -/
theorem groupByAdj_flatten {α : Type} (p : α → α → Bool) :
    ∀ l : List α, (groupByAdj p l).flatten = l := by
  intro l
  induction l with
  | nil => rfl
  | cons a rest ih =>
    cases rest with
    | nil => rfl
    | cons b rest2 =>
      obtain ⟨t, gs, h⟩ := groupByAdj_cons p b rest2
      rw [h] at ih
      by_cases hp : p a b = true <;>
        simp only [groupByAdj, h, hp, if_true, if_false, List.flatten_cons] <;>
        simpa using ih

/-- Adjacency grouping produces no empty group. -/
theorem groupByAdj_mem_ne_nil {α : Type} (p : α → α → Bool) :
    ∀ (l : List α) (g : List α), g ∈ groupByAdj p l → g ≠ [] := by
  intro l
  induction l with
  | nil => intro g hg; simp [groupByAdj] at hg
  | cons a rest ih =>
    cases rest with
    | nil =>
      intro g hg
      simp [groupByAdj] at hg
      simp [hg]
    | cons b rest2 =>
      intro g hg
      obtain ⟨t, gs, h⟩ := groupByAdj_cons p b rest2
      simp only [groupByAdj, h] at hg
      by_cases hp : p a b = true <;> simp [hp] at hg <;>
        rcases hg with hg | hg
      · simp [hg]
      · exact ih g (by rw [h]; exact List.mem_cons_of_mem _ hg)
      · simp [hg]
      · exact ih g (by rw [h]; exact List.mem_cons.mpr hg)

/-- Inside every group produced by adjacency grouping, the predicate holds
between each adjacent pair. -/
theorem groupByAdj_mem_chain {α : Type} (p : α → α → Bool) :
    ∀ (l : List α) (g : List α), g ∈ groupByAdj p l →
      g.Chain' (fun x y => p x y = true) := by
  intro l
  induction l with
  | nil => intro g hg; simp [groupByAdj] at hg
  | cons a rest ih =>
    cases rest with
    | nil =>
      intro g hg
      simp [groupByAdj] at hg
      simp [hg]
    | cons b rest2 =>
      intro g hg
      obtain ⟨t, gs, h⟩ := groupByAdj_cons p b rest2
      simp only [groupByAdj, h] at hg
      by_cases hp : p a b = true <;> simp [hp] at hg <;>
        rcases hg with hg | hg
      · have hbt : List.Chain' (fun x y => p x y = true) (b :: t) :=
          ih (b :: t) (by rw [h]; exact List.mem_cons_self _ _)
        rw [hg]
        exact List.chain'_cons.mpr ⟨hp, hbt⟩
      · exact ih g (by rw [h]; exact List.mem_cons_of_mem _ hg)
      · simp [hg]
      · rcases hg with hg | hg
        · exact ih g (by rw [h, hg]; exact List.mem_cons_self _ _)
        · exact ih g (by rw [h]; exact List.mem_cons_of_mem _ hg)

/-- Between two consecutive groups produced by adjacency grouping, the
predicate fails from the last element of the first to the first element of
the second: groups are maximal runs. -/
theorem groupByAdj_boundary {α : Type} (p : α → α → Bool) :
    ∀ l : List α,
      List.Chain'
        (fun g1 g2 => ∀ x y, g1.getLast? = some x → g2.head? = some y → p x y = false)
        (groupByAdj p l) := by
  intro l
  induction l with
  | nil => simp [groupByAdj]
  | cons a rest ih =>
    cases rest with
    | nil => simp [groupByAdj]
    | cons b rest2 =>
      obtain ⟨t, gs, h⟩ := groupByAdj_cons p b rest2
      rw [h] at ih
      by_cases hp : p a b = true <;> simp only [groupByAdj, h, hp, if_true, if_false]
      · rcases List.chain'_cons'.mp ih with ⟨hhead, htail⟩
        refine List.chain'_cons'.mpr ⟨?_, htail⟩
        intro g2 hg2 x y hx hy
        refine hhead g2 hg2 x y ?_ hy
        rwa [List.getLast?_cons_cons] at hx
      · refine List.chain'_cons.mpr ⟨?_, ih⟩
        intro x y hx hy
        simp at hx hy
        rw [← hx, ← hy]
        simpa using hp

/-- C7: after sorting, the renderer groups by adjacency on equal UTC
(year, month, day): the groups are nonempty maximal same-day runs that
concatenate to the sorted sequence, each emitted as one date header row
followed by that group's entry rows in order; and the grouping is
adjacency-based, not a partition by key — same-day entries separated in
the sequence land in separate groups. -/
theorem C7_day_grouping :
    (∀ entries : List TimesheetEntry,
        draw_timesheet entries
          = RowKind.columnHeader
            :: (groupByAdj same_day (sorted_entries entries)).flatMap draw_group
        ∧ (groupByAdj same_day (sorted_entries entries)).flatten = sorted_entries entries
        ∧ (∀ g ∈ groupByAdj same_day (sorted_entries entries),
            g ≠ [] ∧ g.Chain' (fun x y => same_day x y = true))
        ∧ List.Chain'
            (fun g1 g2 =>
              ∀ x y, g1.getLast? = some x → g2.head? = some y → same_day x y = false)
            (groupByAdj same_day (sorted_entries entries)))
    ∧ (∀ e es,
        draw_group (e :: es) = RowKind.dayHeader (fmtDate e.start) :: (e :: es).map entry_row)
    ∧ groupByAdj same_day [dayEntry1, dayEntry2, dayEntry3]
        = [[dayEntry1], [dayEntry2], [dayEntry3]] := by
  refine ⟨fun entries => ⟨rfl, groupByAdj_flatten _ _, ?_, groupByAdj_boundary _ _⟩,
    fun e es => rfl, by decide⟩
  intro g hg
  exact ⟨groupByAdj_mem_ne_nil _ _ g hg, groupByAdj_mem_chain _ _ g hg⟩

/-- Witness for C7: on a two-day input the later day forms its own group,
nonempty and internally same-day. -/
theorem C7_witness :
    [dayEntry2] ≠ [] ∧ List.Chain' (fun x y => same_day x y = true) [dayEntry2] := by
  have hsorted : sorted_entries [dayEntry1, dayEntry2] = [dayEntry2, dayEntry1] := by
    simp [sorted_entries, List.mergeSort, start_le, dayEntry1, dayEntry2]
  have hgrp : groupByAdj same_day [dayEntry2, dayEntry1] = [[dayEntry2], [dayEntry1]] := by
    decide
  exact (C7_day_grouping.1 [dayEntry1, dayEntry2]).2.2.1 [dayEntry2]
    (by rw [hsorted, hgrp]; exact List.mem_cons_self _ _)

/-- The cookie pipeline — filter for exactly two parts, filter on the key,
flatten, take element 1 — equals a single first-match lookup: the value of
the first piece that splits into exactly the pair `field = value`. -/
theorem cookie_pipeline_eq (parts : List (List String)) (field : String) :
    ((((parts.filter fun x => x.length == 2).filter fun x =>
        x.head? == some field).flatten).get? 1)
      = (parts.filterMap fun x =>
          match x with
          | [k, v] => if k == field then some v else none
          | _ => none).head? := by
  induction parts with
  | nil => rfl
  | cons x rest ih =>
    match x with
    | [] => simpa using ih
    | [a] => simpa using ih
    | [a, b] =>
      by_cases hf : a = field
      · simp [hf, List.findSome?_cons]
      · simpa [hf, List.findSome?_cons] using ih
    | a :: b :: c :: rest2 => simpa using ih

/-- C10 (amended): the loader trims the pasted line, strips optional outer
single quotes, splits on `;` and splits each piece on every `=` with
trimmed parts; only pieces that split into exactly two parts count as
key=value pairs, and the first such pair with the sought key supplies the
value — so a value containing `=` is discarded rather than carried, and
extraction of that key fails unless another piece supplies it. -/
theorem C10_cookie_extraction :
    (∀ user_input field : String,
        extract_field_from_cookie user_input field
          = (((splitString ';' user_input).map fun piece =>
                (splitString '=' piece).map trimString).filterMap fun x =>
              match x with
              | [k, v] => if k == field then some v else none
              | _ => none).head?)
    ∧ load_session_from_input "'session=abc; _spirit=xyz'"
        = some { session := "abc", spirit := "xyz" }
    ∧ load_session_from_input " session = abc=def ; _spirit = xyz ; session = zzz "
        = some { session := "zzz", spirit := "xyz" } := by
  refine ⟨fun ui field => ?_, rfl, rfl⟩
  unfold extract_field_from_cookie
  exact cookie_pipeline_eq ((splitString ';' ui).map fun piece =>
    (splitString '=' piece).map trimString) field

/-- Counterexample to C10 as stated: in the pasted header the `session`
value contains an `=`; the claim predicts `session = "abc=def"`, but the
piece splits into three parts, is filtered out, and the lookup of element 1
panics (modelled by `none`). -/
theorem C10_cex :
    load_session_from_input "session=abc=def; _spirit=xyz" = none
    ∧ (none : Option SessionInfo) ≠ some { session := "abc=def", spirit := "xyz" } :=
  ⟨rfl, fun h => nomatch h⟩
